import Mathlib

/-!
Verification of `weather.py` from the inky-what-weather repository.

The script fetches a forecast, classifies icon-condition codes into icon
categories, builds per-icon transparency masks, and lays out a current
conditions section, an icon bar and three daily forecast tiles on a
paletted canvas. The definitions below shallowly embed the data model
and the relevant functions; machine integers are modelled by `Nat`/`Int`,
paletted images by a size plus a pixel function, and fallible lookups by
`Option`.
-/

namespace InkyWeather

/-! ### Constants (weather.py lines 30-34) -/

def LARGE_FONT_SIZE : Nat := 20

def MEDIUM_FONT_SIZE : Nat := 17

def SMALL_FONT_SIZE : Nat := 15

def SUMMARY_H : Nat := LARGE_FONT_SIZE * 2

def FORECARST_COLUMNS : Nat := 3

/-! ### Icon classification (weather.py lines 21-28 and 36-39) -/

/-- The fixed category-to-codes table `icon_map`, in the source's insertion
order (Python dict iteration preserves insertion order). -/
def icon_map : List (String × List String) :=
  [("snow", ["snow", "sleet"]),
   ("rain", ["rain"]),
   ("cloud", ["fog", "cloudy", "partly-cloudy-day", "partly-cloudy-night"]),
   ("sun", ["clear-day", "clear-night"]),
   ("storm", []),
   ("wind", ["wind"])]

/-- The `for icon in icon_map` loop body of `lookup_icon`: scan the entries in
order and return the first category whose code list contains the name; a
Python function that falls off the end returns `None`, modelled as `none`. -/
def lookup_icon_go (table : List (String × List String)) (icon_name : String) :
    Option String :=
  match table with
  | [] => none
  | (icon, codes) :: rest =>
      if icon_name ∈ codes then some icon else lookup_icon_go rest icon_name

/-- `lookup_icon(icon_name)` from weather.py lines 36-39. -/
def lookup_icon (icon_name : String) : Option String :=
  lookup_icon_go icon_map icon_name

/-! ### Weather fetch (weather.py lines 41-46) -/

/-- `get_weather` returns the parsed JSON body of the HTTP response when its
status code is 200 and `None` otherwise. The HTTP exchange itself is an
external collaborator; its observable result is the pair of a status code and
a parsed body, which the function filters. -/
def get_weather {α : Type} (status_code : Nat) (body : α) : Option α :=
  if status_code = 200 then some body else none

/-! ### Paletted images and transparency masks (weather.py lines 48-65) -/

/-- A paletted (or single-bit) PIL image: a size together with the palette
index returned by `getpixel` at each in-bounds coordinate. -/
structure PImage where
  width : Nat
  height : Nat
  pix : Nat → Nat → Nat

/-- Two images are the same mask when they agree on size and on every
in-bounds pixel. -/
def PImage.eqv (a b : PImage) : Prop :=
  a.width = b.width ∧ a.height = b.height ∧
    ∀ x y, x < a.width → y < a.height → a.pix x y = b.pix x y

/-- `create_mask(source, mask)` from weather.py lines 48-65: a new `"1"` mode
image of the source's size, initialised to 0 by `Image.new`, in which every
pixel whose source palette index lies in the allowed list is set to 255 (in a
`"1"` mode image `getpixel` reports a set bit as 255). -/
def create_mask (source : PImage) (mask : List Nat) : PImage :=
  { width := source.width
    height := source.height
    pix := fun x y => if source.pix x y ∈ mask then 255 else 0 }

/-! ### Current-conditions icon bar (weather.py lines 92-103) -/

/-- The display and icon state visible to `show_current_weather_icon`: the
display width, the per-category icon dimensions loaded at startup, and the
module-level variable `icon_image`, which after the loading loop still holds
the last icon opened (weather.py line 138) and is read again on line 102. -/
structure IconEnv where
  displayWidth : Nat
  iconWidth : String → Nat
  iconHeight : String → Nat
  icon_image_width : Nat

/-- `show_current_weather_icon` (weather.py lines 92-103), reduced to its
layout outputs: the horizontal paste position of the icon
(`int((inky_display.WIDTH - icon_image.width) / 2)`, Python `int(...)`
truncating toward zero) and the returned vertical offset
(`h_offset + icons[icon_name].height`). When `lookup_icon` yields no
category, the subsequent `icons[icon_name]` raises, modelled as `none`. -/
def show_current_weather_icon (env : IconEnv) (icon_code : String)
    (h_offset : Nat) : Option (Int × Nat) :=
  match lookup_icon icon_code with
  | none => none
  | some icon_name =>
      some (Int.tdiv ((env.displayWidth : Int) - (env.icon_image_width : Int)) 2,
            h_offset + env.iconHeight icon_name)

/-! ### Current-conditions text section (weather.py lines 67-90) -/

/-- The text heights reported by `font.getsize` for the five strings drawn by
`show_current_weather`; the font renderer is an external collaborator, so the
heights are parameters. -/
structure FontHeights where
  summary : Nat
  pressure : Nat
  windSpeed : Nat
  visibility : Nat
  ozone : Nat

/-- A piece of text drawn on the canvas: its vertical position and extent.
Python computes positions with float division; every value here is an exact
half-integer, so they are modelled in `ℚ`. -/
structure TextPlacement where
  y : Rat
  extent : Rat

/-- `show_current_weather` (weather.py lines 67-90), reduced to its layout
outputs: the returned vertical offset and the vertical placements of the five
drawn strings (summary centered in the `SUMMARY_H` band, then pressure, wind
speed, visibility and ozone lines each advancing by `LARGE_FONT_SIZE`,
plus 10 padding on the returned offset). -/
def show_current_weather (fh : FontHeights) (h_offset : Nat) :
    Nat × List TextPlacement :=
  let offset0 := h_offset
  let p_summary : TextPlacement :=
    ⟨(offset0 : Rat) + ((SUMMARY_H : Rat) - (fh.summary : Rat)) / 2,
     (fh.summary : Rat)⟩
  let offset1 := offset0 + SUMMARY_H
  let p_pressure : TextPlacement := ⟨(offset1 : Rat), (fh.pressure : Rat)⟩
  let offset2 := offset1 + LARGE_FONT_SIZE
  let p_wind : TextPlacement := ⟨(offset2 : Rat), (fh.windSpeed : Rat)⟩
  let offset3 := offset2 + LARGE_FONT_SIZE
  let p_visibility : TextPlacement := ⟨(offset3 : Rat), (fh.visibility : Rat)⟩
  let offset4 := offset3 + LARGE_FONT_SIZE
  let p_ozone : TextPlacement := ⟨(offset4 : Rat), (fh.ozone : Rat)⟩
  (offset4 + LARGE_FONT_SIZE + 10,
   [p_summary, p_pressure, p_wind, p_visibility, p_ozone])

/-! ### Forecast tile layout (weather.py lines 146-152) -/

/-- An axis-aligned pixel rectangle on the canvas. -/
structure Rect where
  x : Nat
  y : Nat
  w : Nat
  hgt : Nat

/-- The pixel coordinates a rectangle occupies. -/
def Rect.covers (r : Rect) (px py : Nat) : Prop :=
  r.x ≤ px ∧ px < r.x + r.w ∧ r.y ≤ py ∧ py < r.y + r.hgt

/-- The tile rectangles produced by the `for i in range(FORECARST_COLUMNS)`
loop: each iteration builds a `tile_w × tile_h` sub-canvas with
`tile_w = int(W / FORECARST_COLUMNS)` and `tile_h = int(H - used_h)` and
pastes it at `(i * tile_w, used_h)`. -/
def forecast_tile_rects (W H used_h : Nat) : List Rect :=
  (List.range FORECARST_COLUMNS).map fun i =>
    { x := i * (W / FORECARST_COLUMNS), y := used_h,
      w := W / FORECARST_COLUMNS, hgt := H - used_h }

/-- The top-level composition's tile pass: iteration `i` reads
`res['daily']['data'][i]`, which raises unless the daily list has at least
`FORECARST_COLUMNS` entries (modelled as `none`). -/
def compose_forecast_tiles {α : Type} (W H used_h : Nat) (daily : List α) :
    Option (List Rect) :=
  if FORECARST_COLUMNS ≤ daily.length then some (forecast_tile_rects W H used_h)
  else none

end InkyWeather

namespace InkyWeather

/-! ### Theorems -/

/-- C1: `create_mask` returns a mask of the source's dimensions in which a
pixel is 255 iff the source pixel at the same coordinate has a palette index
in the allowed list, and 0 otherwise. -/
theorem create_mask_correct (source : PImage) (m : List Nat) (x y : Nat)
    (_hx : x < source.width) (_hy : y < source.height) :
    (create_mask source m).width = source.width ∧
    (create_mask source m).height = source.height ∧
    ((create_mask source m).pix x y = 255 ↔ source.pix x y ∈ m) ∧
    (source.pix x y ∉ m → (create_mask source m).pix x y = 0) := by
  refine ⟨rfl, rfl, ?_, ?_⟩ <;> simp only [create_mask] <;> split <;> simp_all

/-- C1 witness: a concrete 2×1 source with pixels 1 and 7 against the allowed
list [0, 1, 2]. -/
theorem create_mask_correct_witness :
    ((create_mask ⟨2, 1, fun x _ => if x = 0 then 1 else 7⟩ [0, 1, 2]).width = 2 ∧
     (create_mask ⟨2, 1, fun x _ => if x = 0 then 1 else 7⟩ [0, 1, 2]).height = 1 ∧
     ((create_mask ⟨2, 1, fun x _ => if x = 0 then 1 else 7⟩ [0, 1, 2]).pix 0 0 = 255 ↔
       (PImage.mk 2 1 (fun x _ => if x = 0 then 1 else 7)).pix 0 0 ∈ [0, 1, 2]) ∧
     ((PImage.mk 2 1 (fun x _ => if x = 0 then 1 else 7)).pix 0 0 ∉ [0, 1, 2] →
       (create_mask ⟨2, 1, fun x _ => if x = 0 then 1 else 7⟩ [0, 1, 2]).pix 0 0 = 0)) :=
  create_mask_correct ⟨2, 1, fun x _ => if x = 0 then 1 else 7⟩ [0, 1, 2] 0 0
    (by decide) (by decide)

/-- C2: the code lists of `icon_map` are pairwise disjoint, every code in some
category's list is sent by `lookup_icon` to that owning category, and in
particular `lookup_icon "clear-day" = some "sun"`. -/
theorem icon_map_disjoint_and_lookup_owner :
    icon_map.Pairwise (fun a b => ∀ c ∈ a.2, c ∉ b.2) ∧
    (∀ p ∈ icon_map, ∀ c ∈ p.2, lookup_icon c = some p.1) ∧
    lookup_icon "clear-day" = some "sun" := by
  decide

/-- C2 witness: instantiating the ownership clause at the "snow" entry and the
code "sleet". -/
theorem icon_map_disjoint_and_lookup_owner_witness :
    lookup_icon "sleet" = some "snow" :=
  icon_map_disjoint_and_lookup_owner.2.1 ("snow", ["snow", "sleet"])
    (by decide) "sleet" (by decide)

/-- C5: `get_weather` yields the parsed body exactly on status 200 and `none`
on every other status. -/
theorem get_weather_status {α : Type} (status_code : Nat) (body : α) :
    (status_code = 200 → get_weather status_code body = some body) ∧
    (status_code ≠ 200 → get_weather status_code body = none) := by
  constructor <;> intro h <;> simp [get_weather, h]

/-- C5 witness: status 200 returns the body, status 503 returns `none`. -/
theorem get_weather_status_witness :
    get_weather 200 (7 : Nat) = some 7 ∧ get_weather 503 (7 : Nat) = none :=
  ⟨(get_weather_status 200 7).1 rfl, (get_weather_status 503 7).2 (by decide)⟩

/-- C6: a code that appears in no category's code list is sent to `none` by
`lookup_icon`, never to an arbitrary category. -/
theorem lookup_icon_unrecognized (code : String)
    (h : ∀ p ∈ icon_map, code ∉ p.2) : lookup_icon code = none := by
  have go : ∀ t : List (String × List String), (∀ p ∈ t, code ∉ p.2) →
      lookup_icon_go t code = none := by
    intro t
    induction t with
    | nil => intro _; rfl
    | cons hd tl ih =>
        intro hall
        have hhd : code ∉ hd.2 := hall hd (List.mem_cons_self hd tl)
        have htl : ∀ p ∈ tl, code ∉ p.2 := fun p hp => hall p (List.mem_cons_of_mem hd hp)
        simpa [lookup_icon_go, hhd] using ih htl
  exact go icon_map h

/-- C6 witness: the code "tornado" appears in no list and maps to `none`. -/
theorem lookup_icon_unrecognized_witness : lookup_icon "tornado" = none :=
  lookup_icon_unrecognized "tornado" (by decide)

/-- C10: `lookup_icon` never returns the "storm" category, since the "storm"
entry's code list is empty. -/
theorem lookup_icon_never_storm (code : String) :
    lookup_icon code ≠ some "storm" := by
  simp only [lookup_icon, lookup_icon_go, icon_map]
  repeat' split
  all_goals simp_all

/-- C10 witness: even the code "storm" itself is not sent to "storm" (it is
owned by "snow"). -/
theorem lookup_icon_never_storm_witness : lookup_icon "storm" ≠ some "storm" :=
  lookup_icon_never_storm "storm"

/-- C7 counterexample: a 1×1 image whose only pixel index 0 lies in the
allowed list [0] satisfies the claim's hypothesis, yet applying `create_mask`
twice (the first mask's pixel is 255, and 255 ∉ [0]) differs from applying it
once. -/
theorem create_mask_not_idempotent :
    (∀ x y, x < (PImage.mk 1 1 fun _ _ => 0).width →
        y < (PImage.mk 1 1 fun _ _ => 0).height →
        (PImage.mk 1 1 fun _ _ => 0).pix x y ∈ [0]) ∧
    ¬ PImage.eqv (create_mask (create_mask ⟨1, 1, fun _ _ => 0⟩ [0]) [0])
        (create_mask ⟨1, 1, fun _ _ => 0⟩ [0]) := by
  constructor
  · intro x y _ _; simp
  · intro hcontra
    have h00 := hcontra.2.2 0 0 (by decide) (by decide)
    simp [create_mask] at h00

/-- C7 amended: mask construction is idempotent on images whose in-bounds
pixels all lie in the allowed set, provided the allowed set also contains the
mask's "visible" value 255; the counterexample forces that extra condition,
since a first pass turns allowed pixels into 255. -/
theorem create_mask_idempotent_amended (source : PImage) (m : List Nat)
    (h255 : 255 ∈ m)
    (hall : ∀ x y, x < source.width → y < source.height → source.pix x y ∈ m) :
    PImage.eqv (create_mask (create_mask source m) m) (create_mask source m) := by
  refine ⟨rfl, rfl, ?_⟩
  intro x y hx hy
  have hp : source.pix x y ∈ m := hall x y hx hy
  simp [create_mask, hp, h255]

/-- C7 amended witness: the all-zero 1×1 image with allowed list [0, 255]. -/
theorem create_mask_idempotent_amended_witness :
    PImage.eqv (create_mask (create_mask ⟨1, 1, fun _ _ => 0⟩ [0, 255]) [0, 255])
      (create_mask ⟨1, 1, fun _ _ => 0⟩ [0, 255]) :=
  create_mask_idempotent_amended ⟨1, 1, fun _ _ => 0⟩ [0, 255] (by decide)
    (fun x y _ _ => by simp)

/-- C3: the current-conditions icon paste position is computed from the stale
module-level `icon_image` width (the last icon loaded), not the selected
icon's own width. With display width 400, selected "sun" icon of width 40 and
a last-loaded icon of width 60, the code pastes at x = 170, while centering
the selected icon as the claim states would require x = (400 - 40) / 2 = 180. -/
theorem show_current_weather_icon_paste_bug :
    (show_current_weather_icon
        { displayWidth := 400, iconWidth := fun c => if c = "sun" then 40 else 60,
          iconHeight := fun _ => 50, icon_image_width := 60 }
        "clear-day" 130).map Prod.fst = some 170 ∧
    Int.tdiv ((400 : Int) -
        ((IconEnv.mk 400 (fun c => if c = "sun" then 40 else 60)
          (fun _ => 50) 60).iconWidth "sun" : Int)) 2 = 180 := by
  constructor
  · rfl
  · rfl

/-- C9: when the reading's icon code maps to a category, the icon bar
renderer returns the starting offset plus the selected category icon's
height. -/
theorem show_current_weather_icon_offset (env : IconEnv) (code cat : String)
    (h_offset : Nat) (h : lookup_icon code = some cat) :
    show_current_weather_icon env code h_offset =
      some (Int.tdiv ((env.displayWidth : Int) - (env.icon_image_width : Int)) 2,
        h_offset + env.iconHeight cat) := by
  simp [show_current_weather_icon, h]

/-- C9 witness: "clear-day" maps to "sun"; with a 50-pixel-tall sun icon and
starting offset 130 the renderer returns 180. -/
theorem show_current_weather_icon_offset_witness :
    show_current_weather_icon
        { displayWidth := 400, iconWidth := fun _ => 40,
          iconHeight := fun c => if c = "sun" then 50 else 60,
          icon_image_width := 40 } "clear-day" 130 =
      some (180, 130 + 50) := by
  have h := show_current_weather_icon_offset
    { displayWidth := 400, iconWidth := fun _ => 40,
      iconHeight := fun c => if c = "sun" then 50 else 60,
      icon_image_width := 40 } "clear-day" "sun" 130 (by decide)
  simpa using h

/-- C8: `show_current_weather` returns the starting offset plus the fixed
constant `SUMMARY_H + 4 * LARGE_FONT_SIZE + 10`, independently of the
reading's contents (here: of the rendered text heights); and whenever each
rendered line is at most `LARGE_FONT_SIZE + 10` tall, every drawn string ends
at or above the returned offset, so a section drawn there does not overlap. -/
theorem show_current_weather_offset (fh fh2 : FontHeights) (h_offset : Nat)
    (hs : fh.summary ≤ LARGE_FONT_SIZE + 10)
    (hp : fh.pressure ≤ LARGE_FONT_SIZE + 10)
    (hw : fh.windSpeed ≤ LARGE_FONT_SIZE + 10)
    (hv : fh.visibility ≤ LARGE_FONT_SIZE + 10)
    (ho : fh.ozone ≤ LARGE_FONT_SIZE + 10) :
    (show_current_weather fh h_offset).1 =
      h_offset + (SUMMARY_H + 4 * LARGE_FONT_SIZE + 10) ∧
    (show_current_weather fh h_offset).1 = (show_current_weather fh2 h_offset).1 ∧
    ∀ p ∈ (show_current_weather fh h_offset).2,
      p.y + p.extent ≤ ((show_current_weather fh h_offset).1 : Rat) := by
  refine ⟨?_, ?_, ?_⟩
  · simp [show_current_weather, SUMMARY_H, LARGE_FONT_SIZE]
  · simp [show_current_weather]
  · have hs30 : (fh.summary : Rat) ≤ 30 := by exact_mod_cast hs
    have hp30 : (fh.pressure : Rat) ≤ 30 := by exact_mod_cast hp
    have hw30 : (fh.windSpeed : Rat) ≤ 30 := by exact_mod_cast hw
    have hv30 : (fh.visibility : Rat) ≤ 30 := by exact_mod_cast hv
    have ho30 : (fh.ozone : Rat) ≤ 30 := by exact_mod_cast ho
    intro p hmem
    simp only [show_current_weather, SUMMARY_H, LARGE_FONT_SIZE,
      List.mem_cons, List.not_mem_nil, or_false] at hmem ⊢
    rcases hmem with h1 | h1 | h1 | h1 | h1 <;> subst h1 <;> push_cast <;> linarith

/-- C8 witness: concrete text heights 25/21/21/21/21 starting at offset 0
give back offset 0 + 130. -/
theorem show_current_weather_offset_witness :
    (show_current_weather ⟨25, 21, 21, 21, 21⟩ 0).1 =
      0 + (SUMMARY_H + 4 * LARGE_FONT_SIZE + 10) :=
  (show_current_weather_offset ⟨25, 21, 21, 21, 21⟩ ⟨25, 21, 21, 21, 21⟩ 0
    (by decide) (by decide) (by decide) (by decide) (by decide)).1

/-- C4: with at least 3 daily entries the composition draws exactly three
tiles of width `W / 3` (integer division) at x-offsets 0, `W / 3` and
`2 * (W / 3)`, each of height `H` minus the offset consumed above, and no two
tiles cover a common pixel. -/
theorem forecast_tiles_layout {α : Type} (W H used_h : Nat) (daily : List α)
    (hd : 3 ≤ daily.length) :
    compose_forecast_tiles W H used_h daily =
      some (forecast_tile_rects W H used_h) ∧
    forecast_tile_rects W H used_h =
      [⟨0, used_h, W / 3, H - used_h⟩,
       ⟨W / 3, used_h, W / 3, H - used_h⟩,
       ⟨2 * (W / 3), used_h, W / 3, H - used_h⟩] ∧
    ∀ px py,
      ¬ (Rect.covers ⟨0, used_h, W / 3, H - used_h⟩ px py ∧
         Rect.covers ⟨W / 3, used_h, W / 3, H - used_h⟩ px py) ∧
      ¬ (Rect.covers ⟨0, used_h, W / 3, H - used_h⟩ px py ∧
         Rect.covers ⟨2 * (W / 3), used_h, W / 3, H - used_h⟩ px py) ∧
      ¬ (Rect.covers ⟨W / 3, used_h, W / 3, H - used_h⟩ px py ∧
         Rect.covers ⟨2 * (W / 3), used_h, W / 3, H - used_h⟩ px py) := by
  refine ⟨?_, ?_, ?_⟩
  · simp [compose_forecast_tiles, FORECARST_COLUMNS, hd]
  · simp [forecast_tile_rects, FORECARST_COLUMNS, List.range_succ]
  · intro px py
    refine ⟨?_, ?_, ?_⟩ <;>
      rintro ⟨⟨_, hlt1, _, _⟩, ⟨hge2, _, _, _⟩⟩ <;>
      simp only [Rect.covers] at * <;> omega

/-- C4 witness: a 400×300 display with 180 pixels consumed above and a
3-entry daily list yields the three tile rectangles. -/
theorem forecast_tiles_layout_witness :
    compose_forecast_tiles 400 300 180 ["d0", "d1", "d2"] =
      some (forecast_tile_rects 400 300 180) :=
  (forecast_tiles_layout 400 300 180 ["d0", "d1", "d2"] (by decide)).1

end InkyWeather
